import Mathlib

/-! SC-19: obstacle-distance filter and safety classifier.

Shallow embedding of `test_code/hc_sr04/test.cpp`:

* `calc_distance_average` : three-slot sliding window and its integer mean;
* `judge_dist_safe`       : four-level safety state machine with per-direction borders.

The C file-scope variables are gathered in the record `Globals`; each C function becomes a
function `Globals → Globals`.  Machine integers are mathematical integers (`Int`) and every
narrowing store is written out with `toInt16` / `toInt32`.
-/

namespace SC19

/-! ## Machine integers -/

/-- Range of the C type `int16_t`. -/
def isInt16 (x : Int) : Prop := -32768 ≤ x ∧ x ≤ 32767

instance (x : Int) : Decidable (isInt16 x) := by
  unfold isInt16; exact inferInstance

/-- Range of the C type `int32_t`. -/
def isInt32 (x : Int) : Prop := -2147483648 ≤ x ∧ x ≤ 2147483647

instance (x : Int) : Decidable (isInt32 x) := by
  unfold isInt32; exact inferInstance

/-- Conversion to `int16_t` (two's complement wrap-around). -/
def toInt16 (x : Int) : Int := (x + 32768) % 65536 - 32768

/-- Conversion to `int32_t` (two's complement wrap-around). -/
def toInt32 (x : Int) : Int := (x + 2147483648) % 4294967296 - 2147483648

/-! ## File-scope state -/

/-- Value of `#define DISTANCE_AVERAGE_BUF_SIZE (3)`. -/
def DISTANCE_AVERAGE_BUF_SIZE : Nat := 3

/-- The file-scope variables read and written by the two functions of `test.cpp`. -/
structure Globals where
  /-- The array `static int16_t distance_average_buf[DISTANCE_AVERAGE_BUF_SIZE]`, oldest first. -/
  distance_average_buf : List Int
  /-- The variable `extern int16_t distance_sensor_value`, written by the sensor driver. -/
  distance_sensor_value : Int
  /-- The variable `distance_average_value`, output of the filter. -/
  distance_average_value : Int
  /-- The variable `distance_safe_state`, the current safety level. -/
  distance_safe_state : Int
  deriving DecidableEq

/-! ## `calc_distance_average` -/

/-- First loop of `calc_distance_average`:
`for (index = 0; index < SIZE - 1; index++) buf[index] = buf[index + 1];` -/
def shift_loop (buf : List Int) : List Int :=
  (List.range (DISTANCE_AVERAGE_BUF_SIZE - 1)).foldl
    (fun b index => b.set index (b.getD (index + 1) 0)) buf

/-- Second loop of `calc_distance_average`, starting from `distance_sum = 0`:
`for (index = 0; index < SIZE; index++) distance_sum += (int32_t)buf[index];` -/
def sum_loop (buf : List Int) : Int :=
  (List.range DISTANCE_AVERAGE_BUF_SIZE).foldl
    (fun distance_sum index => toInt32 (distance_sum + toInt32 (buf.getD index 0))) 0

/-- The function `void calc_distance_average(void)`. -/
def calc_distance_average (g : Globals) : Globals :=
  let buf1 := shift_loop g.distance_average_buf
  let buf2 := buf1.set (DISTANCE_AVERAGE_BUF_SIZE - 1) g.distance_sensor_value
  let distance_sum := sum_loop buf2
  { g with
    distance_average_buf := buf2
    distance_average_value := toInt16 (Int.tdiv distance_sum (DISTANCE_AVERAGE_BUF_SIZE : Int)) }

/-! ## `judge_dist_safe` -/

def CAR_SAFE_STATE_SAFE : Int := 0
def CAR_SAFE_STATE_ATTN : Int := 1
def CAR_SAFE_STATE_DANG : Int := 2
def CAR_SAFE_STATE_STOP : Int := 3

def CAR_SAFE_STATE_SAFE_ATTN_BORDER : Int := 200
def CAR_SAFE_STATE_ATTN_SAFE_BORDER : Int := 210
def CAR_SAFE_STATE_ATTN_DANG_BORDER : Int := 140
def CAR_SAFE_STATE_DANG_ATTN_BORDER : Int := 150
def CAR_SAFE_STATE_STOP_DANG_BORDER : Int := 50
def CAR_SAFE_STATE_DANG_STOP_BORDER : Int := 60

/-- The assignment `distance_safe_state = v;`. -/
def set_state (g : Globals) (v : Int) : Globals := { g with distance_safe_state := v }

/-- The function `void judge_dist_safe(void)`.  Each C `if` without `else` is a conditional
update of the record; two consecutive ones are applied one after the other. -/
def judge_dist_safe (g : Globals) : Globals :=
  -- Latch latest value.
  let distance_average_value_tmp : Int := toInt16 g.distance_average_value
  if CAR_SAFE_STATE_SAFE = g.distance_safe_state then
    if CAR_SAFE_STATE_SAFE_ATTN_BORDER > distance_average_value_tmp then
      set_state g CAR_SAFE_STATE_ATTN
    else g
  else if CAR_SAFE_STATE_ATTN = g.distance_safe_state then
    let g1 :=
      if CAR_SAFE_STATE_ATTN_DANG_BORDER > distance_average_value_tmp then
        set_state g CAR_SAFE_STATE_DANG
      else g
    if CAR_SAFE_STATE_ATTN_SAFE_BORDER < distance_average_value_tmp then
      set_state g1 CAR_SAFE_STATE_SAFE
    else g1
  else if CAR_SAFE_STATE_DANG = g.distance_safe_state then
    let g1 :=
      if CAR_SAFE_STATE_DANG_STOP_BORDER > distance_average_value_tmp then
        set_state g CAR_SAFE_STATE_STOP
      else g
    if CAR_SAFE_STATE_DANG_ATTN_BORDER < distance_average_value_tmp then
      set_state g1 CAR_SAFE_STATE_ATTN
    else g1
  else if CAR_SAFE_STATE_STOP = g.distance_safe_state then
    if CAR_SAFE_STATE_STOP_DANG_BORDER < distance_average_value_tmp then
      set_state g CAR_SAFE_STATE_DANG
    else g
  else g

/-! ## Driving the two functions -/

/-- One classifier update with a given average: the stored average is `a` when
`judge_dist_safe` runs. -/
def judge_with (g : Globals) (a : Int) : Globals :=
  judge_dist_safe { g with distance_average_value := a }

/-- Successive classifier updates, one per average of the list. -/
def judge_seq (g : Globals) (as : List Int) : Globals := as.foldl judge_with g

/-- One filter update with a given sample: the driver stores `s` in `distance_sensor_value`,
then `calc_distance_average` runs. -/
def push_sample (g : Globals) (s : Int) : Globals :=
  calc_distance_average { g with distance_sensor_value := s }

/-- Successive filter updates, one per sample of the list. -/
def push_seq (g : Globals) (samples : List Int) : Globals := samples.foldl push_sample g

/-- The averages stored after each of the successive filter updates. -/
def push_averages : Globals → List Int → List Int
  | _, [] => []
  | g, s :: rest => (push_sample g s).distance_average_value :: push_averages (push_sample g s) rest

/-- Start-up state: window zeroed, state `Safe`. -/
def initial_globals : Globals :=
  { distance_average_buf := [0, 0, 0]
    distance_sensor_value := 0
    distance_average_value := 0
    distance_safe_state := CAR_SAFE_STATE_SAFE }

/-- One tick of the pipeline: the sample is stored, the filter runs, then the classifier. -/
def tick (g : Globals) (s : Int) : Globals := judge_dist_safe (push_sample g s)

/-- Successive ticks, one per sample of the list. -/
def tick_seq (g : Globals) (samples : List Int) : Globals := samples.foldl tick g

/-- The four values a safety state can take. -/
def valid_state (s : Int) : Prop :=
  s = CAR_SAFE_STATE_SAFE ∨ s = CAR_SAFE_STATE_ATTN ∨ s = CAR_SAFE_STATE_DANG ∨
    s = CAR_SAFE_STATE_STOP

instance (s : Int) : Decidable (valid_state s) := by
  unfold valid_state; exact inferInstance

/-- The second loop of `calc_distance_average` with its additions recorded: the first
component is the `int32_t` accumulator `distance_sum` of `sum_loop`, the second collects the
exact value of `distance_sum + (int32_t)buf[index]` of every iteration, before it is stored. -/
def sum_loop_traced (buf : List Int) : Int × List Int :=
  (List.range DISTANCE_AVERAGE_BUF_SIZE).foldl
    (fun (st : Int × List Int) index =>
      (toInt32 (st.1 + toInt32 (buf.getD index 0)),
        st.2 ++ [st.1 + toInt32 (buf.getD index 0)])) (0, [])

/-- The exact values of the additions performed by the second loop, in order. -/
def sum_loop_exact (buf : List Int) : List Int := (sum_loop_traced buf).2

/-- The variant of `judge_dist_safe` with exclusive branching: in the `Attention` and the
`Danger` branch the second check is the `else if` of the first. -/
def judge_dist_safe_else_if (g : Globals) : Globals :=
  let distance_average_value_tmp : Int := toInt16 g.distance_average_value
  if CAR_SAFE_STATE_SAFE = g.distance_safe_state then
    if CAR_SAFE_STATE_SAFE_ATTN_BORDER > distance_average_value_tmp then
      set_state g CAR_SAFE_STATE_ATTN
    else g
  else if CAR_SAFE_STATE_ATTN = g.distance_safe_state then
    if CAR_SAFE_STATE_ATTN_DANG_BORDER > distance_average_value_tmp then
      set_state g CAR_SAFE_STATE_DANG
    else if CAR_SAFE_STATE_ATTN_SAFE_BORDER < distance_average_value_tmp then
      set_state g CAR_SAFE_STATE_SAFE
    else g
  else if CAR_SAFE_STATE_DANG = g.distance_safe_state then
    if CAR_SAFE_STATE_DANG_STOP_BORDER > distance_average_value_tmp then
      set_state g CAR_SAFE_STATE_STOP
    else if CAR_SAFE_STATE_DANG_ATTN_BORDER < distance_average_value_tmp then
      set_state g CAR_SAFE_STATE_ATTN
    else g
  else if CAR_SAFE_STATE_STOP = g.distance_safe_state then
    if CAR_SAFE_STATE_STOP_DANG_BORDER < distance_average_value_tmp then
      set_state g CAR_SAFE_STATE_DANG
    else g
  else g

/-! ## `not0` (`sc.hpp`) -/

/-- The primary template `template<typename T> inline T not0(T value)` of `sc.hpp`, at an
integer type `T`: `return (value ? value : 1);`. -/
def not0 (value : Int) : Int := if value ≠ 0 then value else 1

/-! ## `Serial::DeviceSelect` and `Serial::MemoryAddr` (`sc.hpp`, `sc.cpp`) -/

/-- Range of the C type `uint8_t`. -/
def isUInt8 (x : Nat) : Prop := x < 256

instance (x : Nat) : Decidable (isUInt8 x) := by
  unfold isUInt8; exact inferInstance

/-- The exception class `sc::Error`, as the source line and the message it is thrown with. -/
structure Error where
  /-- The argument `__LINE__` of the `throw` expression. -/
  LINE : Nat
  /-- The member `_message`. -/
  message : String
  deriving DecidableEq

namespace Serial

/-- The class `Serial::DeviceSelect`: one `const uint8_t` member. -/
structure DeviceSelect where
  /-- The member `const uint8_t _device_select_id`. -/
  _device_select_id : Nat
  deriving DecidableEq

/-- The constant `static constexpr uint8_t MinDeviceSelectID = 0x00`. -/
def DeviceSelect.MinDeviceSelectID : Nat := 0x00

/-- The constant `static constexpr uint8_t MaxDeviceSelectID = 0xff`. -/
def DeviceSelect.MaxDeviceSelectID : Nat := 0xff

/-- The constructor `Serial::DeviceSelect::DeviceSelect(uint8_t device_select_id)`, named
`new` here because the class name is taken by the record: the member is initialised, then each of the two checks throws when it fires. -/
def DeviceSelect.new (device_select_id : Nat) : Except Error DeviceSelect := do
  let self : DeviceSelect := { _device_select_id := device_select_id }
  if self._device_select_id < DeviceSelect.MinDeviceSelectID then
    throw { LINE := 169, message := "Invalid device_select_id value entered." }
  if DeviceSelect.MaxDeviceSelectID < self._device_select_id then
    throw { LINE := 173, message := "Invalid device_select_id value entered." }
  pure self

/-- The method `uint8_t Serial::DeviceSelect::get() const noexcept`. -/
def DeviceSelect.get (self : DeviceSelect) : Nat := self._device_select_id

/-- The class `Serial::MemoryAddr`: one `const uint8_t` member. -/
structure MemoryAddr where
  /-- The member `const uint8_t _memory_addr`. -/
  _memory_addr : Nat
  deriving DecidableEq

/-- The constant `static constexpr uint8_t MinMemoryAddr = 0x00`. -/
def MemoryAddr.MinMemoryAddr : Nat := 0x00

/-- The constant `static constexpr uint8_t MaxMemoryAddr = 0xff`. -/
def MemoryAddr.MaxMemoryAddr : Nat := 0xff

/-- The constructor `Serial::MemoryAddr::MemoryAddr(uint8_t memory_addr)`, named `new` here
because the class name is taken by the record: the member is initialised, then each of the two checks throws when it fires. -/
def MemoryAddr.new (memory_addr : Nat) : Except Error MemoryAddr := do
  let self : MemoryAddr := { _memory_addr := memory_addr }
  if self._memory_addr < MemoryAddr.MinMemoryAddr then
    throw { LINE := 190, message := "Invalid memory_addr value entered." }
  if MemoryAddr.MaxMemoryAddr < self._memory_addr then
    throw { LINE := 194, message := "Invalid memory_addr value entered." }
  pure self

/-- The method `uint8_t Serial::MemoryAddr::get() const noexcept`. -/
def MemoryAddr.get (self : MemoryAddr) : Nat := self._memory_addr

end Serial

/-! ## Helper lemmas -/

theorem toInt16_of_isInt16 {x : Int} (h : isInt16 x) : toInt16 x = x := by
  unfold isInt16 at h
  unfold toInt16
  omega

theorem toInt32_of_isInt32 {x : Int} (h : isInt32 x) : toInt32 x = x := by
  unfold isInt32 at h
  unfold toInt32
  omega

/-- Next state from `Safe`, for an average in the `int16_t` range. -/
theorem judge_from_safe (g : Globals) (hs : g.distance_safe_state = CAR_SAFE_STATE_SAFE)
    (ha : isInt16 g.distance_average_value) :
    (judge_dist_safe g).distance_safe_state =
      if g.distance_average_value < 200 then CAR_SAFE_STATE_ATTN else CAR_SAFE_STATE_SAFE := by
  have hs0 : g.distance_safe_state = 0 := hs
  simp only [judge_dist_safe, set_state, toInt16_of_isInt16 ha, hs0, CAR_SAFE_STATE_SAFE,
    CAR_SAFE_STATE_ATTN, CAR_SAFE_STATE_SAFE_ATTN_BORDER]
  split_ifs <;> first | rfl | exact hs0

/-- Next state from `Attention`, for an average in the `int16_t` range. -/
theorem judge_from_attn (g : Globals) (hs : g.distance_safe_state = CAR_SAFE_STATE_ATTN)
    (ha : isInt16 g.distance_average_value) :
    (judge_dist_safe g).distance_safe_state =
      if g.distance_average_value < 140 then CAR_SAFE_STATE_DANG
      else if 210 < g.distance_average_value then CAR_SAFE_STATE_SAFE
      else CAR_SAFE_STATE_ATTN := by
  have hs1 : g.distance_safe_state = 1 := hs
  simp only [judge_dist_safe, set_state, toInt16_of_isInt16 ha, hs1, CAR_SAFE_STATE_SAFE,
    CAR_SAFE_STATE_ATTN, CAR_SAFE_STATE_DANG, CAR_SAFE_STATE_ATTN_DANG_BORDER,
    CAR_SAFE_STATE_ATTN_SAFE_BORDER]
  split_ifs <;> first | rfl | exact hs1 | omega

/-- Next state from `Danger`, for an average in the `int16_t` range. -/
theorem judge_from_dang (g : Globals) (hs : g.distance_safe_state = CAR_SAFE_STATE_DANG)
    (ha : isInt16 g.distance_average_value) :
    (judge_dist_safe g).distance_safe_state =
      if g.distance_average_value < 60 then CAR_SAFE_STATE_STOP
      else if 150 < g.distance_average_value then CAR_SAFE_STATE_ATTN
      else CAR_SAFE_STATE_DANG := by
  have hs2 : g.distance_safe_state = 2 := hs
  simp only [judge_dist_safe, set_state, toInt16_of_isInt16 ha, hs2, CAR_SAFE_STATE_SAFE,
    CAR_SAFE_STATE_ATTN, CAR_SAFE_STATE_DANG, CAR_SAFE_STATE_STOP,
    CAR_SAFE_STATE_DANG_STOP_BORDER, CAR_SAFE_STATE_DANG_ATTN_BORDER]
  split_ifs <;> first | rfl | exact hs2 | omega

/-- Next state from `Stop`, for an average in the `int16_t` range. -/
theorem judge_from_stop (g : Globals) (hs : g.distance_safe_state = CAR_SAFE_STATE_STOP)
    (ha : isInt16 g.distance_average_value) :
    (judge_dist_safe g).distance_safe_state =
      if 50 < g.distance_average_value then CAR_SAFE_STATE_DANG else CAR_SAFE_STATE_STOP := by
  have hs3 : g.distance_safe_state = 3 := hs
  simp only [judge_dist_safe, set_state, toInt16_of_isInt16 ha, hs3, CAR_SAFE_STATE_SAFE,
    CAR_SAFE_STATE_ATTN, CAR_SAFE_STATE_DANG, CAR_SAFE_STATE_STOP,
    CAR_SAFE_STATE_STOP_DANG_BORDER]
  split_ifs <;> first | rfl | exact hs3 | omega

/-- The classifier writes nothing but the safety state. -/
theorem judge_frame (g : Globals) :
    (judge_dist_safe g).distance_average_buf = g.distance_average_buf ∧
    (judge_dist_safe g).distance_sensor_value = g.distance_sensor_value ∧
    (judge_dist_safe g).distance_average_value = g.distance_average_value := by
  simp only [judge_dist_safe, set_state]
  split_ifs <;> exact ⟨rfl, rfl, rfl⟩

/-- A valid state stays valid under one update, whatever the stored average. -/
theorem judge_valid (g : Globals) (h : valid_state g.distance_safe_state) :
    valid_state (judge_dist_safe g).distance_safe_state := by
  unfold valid_state at *
  simp only [judge_dist_safe, set_state, CAR_SAFE_STATE_SAFE, CAR_SAFE_STATE_ATTN,
    CAR_SAFE_STATE_DANG, CAR_SAFE_STATE_STOP] at *
  split_ifs <;> simp_all

/-- Running the classifier on a list of averages, one step unfolded. -/
theorem judge_seq_cons (g : Globals) (a : Int) (rest : List Int) :
    judge_seq g (a :: rest) = judge_seq (judge_with g a) rest := rfl

/-- Running the classifier on a concatenation. -/
theorem judge_seq_append (g : Globals) (xs ys : List Int) :
    judge_seq g (xs ++ ys) = judge_seq (judge_seq g xs) ys := by
  simp [judge_seq, List.foldl_append]

/-- A single update changes the state by at most one level, whatever the stored values. -/
theorem judge_step_le (g : Globals) :
    (judge_dist_safe g).distance_safe_state - g.distance_safe_state ≤ 1 ∧
    g.distance_safe_state - (judge_dist_safe g).distance_safe_state ≤ 1 := by
  simp only [judge_dist_safe, set_state, CAR_SAFE_STATE_SAFE, CAR_SAFE_STATE_ATTN,
    CAR_SAFE_STATE_DANG, CAR_SAFE_STATE_STOP]
  split_ifs <;> simp_all <;> omega

/-- After `n` updates the state has moved by at most `n` levels. -/
theorem judge_seq_le (as : List Int) (g : Globals) :
    (judge_seq g as).distance_safe_state - g.distance_safe_state ≤ as.length ∧
    g.distance_safe_state - (judge_seq g as).distance_safe_state ≤ as.length := by
  induction as generalizing g with
  | nil => simp [judge_seq]
  | cons a rest ih =>
    have h1 := judge_step_le { g with distance_average_value := a }
    have h2 := ih (judge_with g a)
    simp only [judge_seq, List.foldl_cons, List.length_cons, Nat.cast_add, Nat.cast_one] at h2 ⊢
    simp only [judge_with] at h1 h2 ⊢
    omega

/-- Truncated division by three, seen from both signs of the dividend. -/
theorem tdiv_three_bounds (x : Int) :
    (0 ≤ x → 3 * Int.tdiv x 3 ≤ x ∧ x < 3 * Int.tdiv x 3 + 3) ∧
    (x ≤ 0 → x ≤ 3 * Int.tdiv x 3 ∧ 3 * Int.tdiv x 3 - 3 < x) := by
  constructor
  · intro h
    rw [Int.tdiv_eq_ediv h (by decide)]
    omega
  · intro h
    have hneg : Int.tdiv x 3 = -((-x) / 3) := by
      have h1 : Int.tdiv (-(-x)) 3 = -(Int.tdiv (-x) 3) := Int.neg_tdiv (-x) 3
      rw [Int.neg_neg] at h1
      rw [h1, Int.tdiv_eq_ediv (by omega) (by decide)]
    rw [hneg]
    omega

/-- The truncated third of a sum of three `int16_t` values is an `int16_t` value. -/
theorem tdiv_three_isInt16 {x y z : Int} (hx : isInt16 x) (hy : isInt16 y) (hz : isInt16 z) :
    isInt16 (Int.tdiv (x + y + z) 3) := by
  unfold isInt16 at *
  have h := tdiv_three_bounds (x + y + z)
  by_cases h0 : 0 ≤ x + y + z
  · have := h.1 h0
    omega
  · have := h.2 (by omega)
    omega

/-- The window after one call of `calc_distance_average`. -/
theorem calc_buf (g : Globals) (a b c : Int) (hbuf : g.distance_average_buf = [a, b, c]) :
    (calc_distance_average g).distance_average_buf = [b, c, g.distance_sensor_value] := by
  simp [calc_distance_average, shift_loop, DISTANCE_AVERAGE_BUF_SIZE, hbuf, List.range,
    List.range.loop]

/-- The sum computed by the second loop on a window of three `int16_t` values. -/
theorem sum_loop_three {x y z : Int} (hx : isInt16 x) (hy : isInt16 y) (hz : isInt16 z) :
    sum_loop [x, y, z] = x + y + z := by
  unfold isInt16 at *
  have e1 : toInt32 x = x := toInt32_of_isInt32 (by unfold isInt32; omega)
  have e2 : toInt32 y = y := toInt32_of_isInt32 (by unfold isInt32; omega)
  have e3 : toInt32 z = z := toInt32_of_isInt32 (by unfold isInt32; omega)
  have e4 : toInt32 (x + y) = x + y := toInt32_of_isInt32 (by unfold isInt32; omega)
  have e5 : toInt32 (x + y + z) = x + y + z := toInt32_of_isInt32 (by unfold isInt32; omega)
  simp [sum_loop, DISTANCE_AVERAGE_BUF_SIZE, List.range, List.range.loop, e1, e2, e3, e4, e5]

/-- The average stored by one call of `calc_distance_average`. -/
theorem calc_avg (g : Globals) (a b c : Int) (hbuf : g.distance_average_buf = [a, b, c])
    (hb : isInt16 b) (hc : isInt16 c) (hs : isInt16 g.distance_sensor_value) :
    (calc_distance_average g).distance_average_value
      = Int.tdiv (b + c + g.distance_sensor_value) 3 := by
  have hbuf2 : (shift_loop g.distance_average_buf).set (DISTANCE_AVERAGE_BUF_SIZE - 1)
      g.distance_sensor_value = [b, c, g.distance_sensor_value] := calc_buf g a b c hbuf
  simp only [calc_distance_average, hbuf2, sum_loop_three hb hc hs]
  exact toInt16_of_isInt16 (tdiv_three_isInt16 hb hc hs)

/-- The window after one filter update with sample `s`. -/
theorem push_buf (g : Globals) (a b c s : Int) (hbuf : g.distance_average_buf = [a, b, c]) :
    (push_sample g s).distance_average_buf = [b, c, s] :=
  calc_buf { g with distance_sensor_value := s } a b c hbuf

/-- The average after one filter update with sample `s`. -/
theorem push_avg (g : Globals) (a b c s : Int) (hbuf : g.distance_average_buf = [a, b, c])
    (hb : isInt16 b) (hc : isInt16 c) (hs : isInt16 s) :
    (push_sample g s).distance_average_value = Int.tdiv (b + c + s) 3 :=
  calc_avg { g with distance_sensor_value := s } a b c hbuf hb hc hs

/-- Filter updates keep a window of three slots. -/
theorem push_seq_three (samples : List Int) (g : Globals)
    (h : ∃ a b c, g.distance_average_buf = [a, b, c]) :
    ∃ a b c, (push_seq g samples).distance_average_buf = [a, b, c] := by
  induction samples generalizing g with
  | nil => simpa [push_seq] using h
  | cons s rest ih =>
    obtain ⟨a, b, c, hbuf⟩ := h
    have := ih (push_sample g s) ⟨b, c, s, push_buf g a b c s hbuf⟩
    simpa [push_seq] using this

/-- Splitting a run of filter updates. -/
theorem push_seq_append (g : Globals) (xs ys : List Int) :
    push_seq g (xs ++ ys) = push_seq (push_seq g xs) ys := by
  simp [push_seq, List.foldl_append]

/-! ## The classifier `judge_dist_safe` -/

/-- C1 (evaluation of the code): with the constant average 55 the state toggles between
`Danger` and `Stop`: from `Danger` one call gives `Stop` (55 is below the border 60 used for
`Danger → Stop`), and the next call with the same average gives `Danger` again (55 is above
the border 50 used for `Stop → Danger`), returning to the very same global state. -/
theorem judge_dist_safe_toggles_at_55 :
    isInt16 55 ∧
    (judge_dist_safe ⟨[0, 0, 0], 0, 55, CAR_SAFE_STATE_DANG⟩).distance_safe_state
      = CAR_SAFE_STATE_STOP ∧
    (judge_dist_safe (judge_dist_safe ⟨[0, 0, 0], 0, 55, CAR_SAFE_STATE_DANG⟩)).distance_safe_state
      = CAR_SAFE_STATE_DANG ∧
    judge_dist_safe (judge_dist_safe ⟨[0, 0, 0], 0, 55, CAR_SAFE_STATE_DANG⟩)
      = ⟨[0, 0, 0], 0, 55, CAR_SAFE_STATE_DANG⟩ := by
  decide

/-- C2 (evaluation of the code): from `Danger` the averages 50 and 59, which lie in the
interval 50..150, give `Stop` and not `Danger`; the state is kept only from 60 on. -/
theorem judge_dist_safe_danger_at_50_59 :
    (judge_dist_safe ⟨[0, 0, 0], 0, 50, CAR_SAFE_STATE_DANG⟩).distance_safe_state
      = CAR_SAFE_STATE_STOP ∧
    (judge_dist_safe ⟨[0, 0, 0], 0, 59, CAR_SAFE_STATE_DANG⟩).distance_safe_state
      = CAR_SAFE_STATE_STOP ∧
    (judge_dist_safe ⟨[0, 0, 0], 0, 60, CAR_SAFE_STATE_DANG⟩).distance_safe_state
      = CAR_SAFE_STATE_DANG := by
  decide

/-- C3 (evaluation of the code): from `Stop` the averages 51 and 60, which are not above 60,
give `Danger` and not `Stop`; the state is kept only up to 50. -/
theorem judge_dist_safe_stop_at_51_60 :
    (judge_dist_safe ⟨[0, 0, 0], 0, 51, CAR_SAFE_STATE_STOP⟩).distance_safe_state
      = CAR_SAFE_STATE_DANG ∧
    (judge_dist_safe ⟨[0, 0, 0], 0, 60, CAR_SAFE_STATE_STOP⟩).distance_safe_state
      = CAR_SAFE_STATE_DANG ∧
    (judge_dist_safe ⟨[0, 0, 0], 0, 50, CAR_SAFE_STATE_STOP⟩).distance_safe_state
      = CAR_SAFE_STATE_STOP := by
  decide

/-- C4 (evaluation of the code): the borders of the pairs Safe/Attention and Attention/Danger
are ordered (worsening border below improving border), but for the pair Danger/Stop the
worsening transition is compared against `CAR_SAFE_STATE_DANG_STOP_BORDER = 60` and the
improving one against `CAR_SAFE_STATE_STOP_DANG_BORDER = 50`, so the worsening border is the
larger one; the calls at 59/60 from `Danger` and at 50/51 from `Stop` show that these are the
borders really compared against. -/
theorem judge_dist_safe_danger_stop_borders :
    CAR_SAFE_STATE_SAFE_ATTN_BORDER < CAR_SAFE_STATE_ATTN_SAFE_BORDER ∧
    CAR_SAFE_STATE_ATTN_DANG_BORDER < CAR_SAFE_STATE_DANG_ATTN_BORDER ∧
    CAR_SAFE_STATE_DANG_STOP_BORDER = 60 ∧
    CAR_SAFE_STATE_STOP_DANG_BORDER = 50 ∧
    ¬ (CAR_SAFE_STATE_DANG_STOP_BORDER < CAR_SAFE_STATE_STOP_DANG_BORDER) ∧
    (judge_dist_safe ⟨[0, 0, 0], 0, CAR_SAFE_STATE_DANG_STOP_BORDER - 1,
        CAR_SAFE_STATE_DANG⟩).distance_safe_state = CAR_SAFE_STATE_STOP ∧
    (judge_dist_safe ⟨[0, 0, 0], 0, CAR_SAFE_STATE_DANG_STOP_BORDER,
        CAR_SAFE_STATE_DANG⟩).distance_safe_state = CAR_SAFE_STATE_DANG ∧
    (judge_dist_safe ⟨[0, 0, 0], 0, CAR_SAFE_STATE_STOP_DANG_BORDER + 1,
        CAR_SAFE_STATE_STOP⟩).distance_safe_state = CAR_SAFE_STATE_DANG ∧
    (judge_dist_safe ⟨[0, 0, 0], 0, CAR_SAFE_STATE_STOP_DANG_BORDER,
        CAR_SAFE_STATE_STOP⟩).distance_safe_state = CAR_SAFE_STATE_STOP := by
  decide

/-- C5: called in state `Safe` with an `int16_t` average `a`, `judge_dist_safe` leaves the
state `Attention` exactly when `a < 200` and `Safe` otherwise; with average 200 the state stays
`Safe`, with 199 it becomes `Attention`. -/
theorem judge_dist_safe_safe (g : Globals)
    (hs : g.distance_safe_state = CAR_SAFE_STATE_SAFE)
    (ha : isInt16 g.distance_average_value) :
    ((judge_dist_safe g).distance_safe_state = CAR_SAFE_STATE_ATTN
        ↔ g.distance_average_value < 200) ∧
    ((judge_dist_safe g).distance_safe_state = CAR_SAFE_STATE_SAFE
        ↔ ¬ g.distance_average_value < 200) ∧
    (judge_dist_safe { g with distance_average_value := 200 }).distance_safe_state
      = CAR_SAFE_STATE_SAFE ∧
    (judge_dist_safe { g with distance_average_value := 199 }).distance_safe_state
      = CAR_SAFE_STATE_ATTN := by
  have h200 := judge_from_safe { g with distance_average_value := 200 } hs
    (show isInt16 200 by decide)
  have h199 := judge_from_safe { g with distance_average_value := 199 } hs
    (show isInt16 199 by decide)
  rw [judge_from_safe g hs ha]
  refine ⟨?_, ?_, ?_, ?_⟩
  · by_cases h : g.distance_average_value < 200 <;>
      simp [h, CAR_SAFE_STATE_SAFE, CAR_SAFE_STATE_ATTN]
  · by_cases h : g.distance_average_value < 200 <;>
      simp [h, CAR_SAFE_STATE_SAFE, CAR_SAFE_STATE_ATTN]
  · simpa using h200
  · simpa using h199

/-- Witness for C5 at the average 199. -/
theorem judge_dist_safe_safe_witness :
    (judge_dist_safe ⟨[0, 0, 0], 0, 199, CAR_SAFE_STATE_SAFE⟩).distance_safe_state
        = CAR_SAFE_STATE_ATTN ↔ (199 : Int) < 200 :=
  (judge_dist_safe_safe ⟨[0, 0, 0], 0, 199, CAR_SAFE_STATE_SAFE⟩ rfl (by decide)).1

/-- C6: called in state `Attention` with an `int16_t` average `a`, `judge_dist_safe` leaves the
state `Danger` if `a < 140`, `Safe` if `a > 210`, and `Attention` otherwise
(`140 ≤ a ≤ 210`). -/
theorem judge_dist_safe_attn (g : Globals)
    (hs : g.distance_safe_state = CAR_SAFE_STATE_ATTN)
    (ha : isInt16 g.distance_average_value) :
    (g.distance_average_value < 140 →
      (judge_dist_safe g).distance_safe_state = CAR_SAFE_STATE_DANG) ∧
    (g.distance_average_value > 210 →
      (judge_dist_safe g).distance_safe_state = CAR_SAFE_STATE_SAFE) ∧
    (140 ≤ g.distance_average_value → g.distance_average_value ≤ 210 →
      (judge_dist_safe g).distance_safe_state = CAR_SAFE_STATE_ATTN) := by
  rw [judge_from_attn g hs ha]
  refine ⟨?_, ?_, ?_⟩
  · intro h
    simp [h]
  · intro h
    have h1 : ¬ g.distance_average_value < 140 := by omega
    have h2 : 210 < g.distance_average_value := h
    simp [h1, h2]
  · intro h1 h2
    have h3 : ¬ g.distance_average_value < 140 := by omega
    have h4 : ¬ 210 < g.distance_average_value := by omega
    simp [h3, h4]

/-- Witness for C6 at the averages 100, 250 and 205. -/
theorem judge_dist_safe_attn_witness :
    (judge_dist_safe ⟨[0, 0, 0], 0, 100, CAR_SAFE_STATE_ATTN⟩).distance_safe_state
      = CAR_SAFE_STATE_DANG ∧
    (judge_dist_safe ⟨[0, 0, 0], 0, 250, CAR_SAFE_STATE_ATTN⟩).distance_safe_state
      = CAR_SAFE_STATE_SAFE ∧
    (judge_dist_safe ⟨[0, 0, 0], 0, 205, CAR_SAFE_STATE_ATTN⟩).distance_safe_state
      = CAR_SAFE_STATE_ATTN :=
  ⟨(judge_dist_safe_attn ⟨[0, 0, 0], 0, 100, CAR_SAFE_STATE_ATTN⟩ rfl (by decide)).1 (by decide),
   (judge_dist_safe_attn ⟨[0, 0, 0], 0, 250, CAR_SAFE_STATE_ATTN⟩ rfl (by decide)).2.1
      (by decide),
   (judge_dist_safe_attn ⟨[0, 0, 0], 0, 205, CAR_SAFE_STATE_ATTN⟩ rfl (by decide)).2.2
      (by decide) (by decide)⟩

/-- C7: a single call of `judge_dist_safe` changes the state by at most one severity level
(`Safe = 0 < Attention = 1 < Danger = 2 < Stop = 3`), for every stored state and average; from
`Stop` a single call yields neither `Attention` nor `Safe`; and a sequence of updates that
leads from `Stop` to `Safe` has at least three updates, whatever the averages are. -/
theorem judge_dist_safe_one_level (g : Globals) (as : List Int) :
    |(judge_dist_safe g).distance_safe_state - g.distance_safe_state| ≤ 1 ∧
    (g.distance_safe_state = CAR_SAFE_STATE_STOP →
      (judge_dist_safe g).distance_safe_state ≠ CAR_SAFE_STATE_ATTN ∧
      (judge_dist_safe g).distance_safe_state ≠ CAR_SAFE_STATE_SAFE) ∧
    (g.distance_safe_state = CAR_SAFE_STATE_STOP →
      (judge_seq g as).distance_safe_state = CAR_SAFE_STATE_SAFE → 3 ≤ as.length) := by
  have h1 := judge_step_le g
  have h2 := judge_seq_le as g
  refine ⟨abs_le.mpr ⟨by omega, by omega⟩, ?_, ?_⟩
  · intro hs
    simp only [CAR_SAFE_STATE_STOP, CAR_SAFE_STATE_ATTN, CAR_SAFE_STATE_SAFE] at hs ⊢
    constructor <;> omega
  · intro hs hf
    simp only [CAR_SAFE_STATE_STOP, CAR_SAFE_STATE_SAFE] at hs hf
    omega

/-- Witness for C7: the averages 100, 160, 220 lead from `Stop` to `Safe` in three updates. -/
theorem judge_dist_safe_one_level_witness :
    (judge_seq ⟨[0, 0, 0], 0, 0, CAR_SAFE_STATE_STOP⟩ [100, 160, 220]).distance_safe_state
      = CAR_SAFE_STATE_SAFE ∧
    3 ≤ [(100 : Int), 160, 220].length :=
  ⟨by decide,
   (judge_dist_safe_one_level ⟨[0, 0, 0], 0, 0, CAR_SAFE_STATE_STOP⟩ [100, 160, 220]).2.2
      rfl (by decide)⟩

/-! ## The filter `calc_distance_average` -/

/-- C8: for a window `[a, b, c]` and a sample `s` in the `int16_t` range, the average stored by
`calc_distance_average` is `(b + c + s) / 3` with the quotient truncated toward zero: it is
`Int.tdiv (b + c + s) 3`, which for a non-negative sum is the largest `q` with `3 * q ≤ sum`
and for a non-positive sum the smallest `q` with `sum ≤ 3 * q`.  The resulting window
`[1, 2, 2]` gives 1 and the resulting window `[-1, -2, -2]` gives -1. -/
theorem calc_distance_average_truncates (g : Globals) (a b c : Int)
    (hbuf : g.distance_average_buf = [a, b, c])
    (hb : isInt16 b) (hc : isInt16 c) (hs : isInt16 g.distance_sensor_value) :
    (calc_distance_average g).distance_average_value
      = Int.tdiv (b + c + g.distance_sensor_value) 3 ∧
    (0 ≤ b + c + g.distance_sensor_value →
      3 * (calc_distance_average g).distance_average_value ≤ b + c + g.distance_sensor_value ∧
      b + c + g.distance_sensor_value
        < 3 * (calc_distance_average g).distance_average_value + 3) ∧
    (b + c + g.distance_sensor_value ≤ 0 →
      b + c + g.distance_sensor_value ≤ 3 * (calc_distance_average g).distance_average_value ∧
      3 * (calc_distance_average g).distance_average_value - 3
        < b + c + g.distance_sensor_value) ∧
    (calc_distance_average ⟨[0, 1, 2], 2, 0, 0⟩).distance_average_buf = [1, 2, 2] ∧
    (calc_distance_average ⟨[0, 1, 2], 2, 0, 0⟩).distance_average_value = 1 ∧
    (calc_distance_average ⟨[0, -1, -2], -2, 0, 0⟩).distance_average_buf = [-1, -2, -2] ∧
    (calc_distance_average ⟨[0, -1, -2], -2, 0, 0⟩).distance_average_value = -1 := by
  rw [calc_avg g a b c hbuf hb hc hs]
  have h := tdiv_three_bounds (b + c + g.distance_sensor_value)
  exact ⟨rfl, h.1, h.2, by decide, by decide, by decide, by decide⟩

/-- Witness for C8: the window `[7, -1, -2]` with sample `-2` stores the average `-1`. -/
theorem calc_distance_average_truncates_witness :
    (calc_distance_average ⟨[7, -1, -2], -2, 0, 0⟩).distance_average_value
      = Int.tdiv (-1 + -2 + -2) 3 :=
  (calc_distance_average_truncates ⟨[7, -1, -2], -2, 0, 0⟩ 7 (-1) (-2) rfl
    (by decide) (by decide) (by decide)).1

/-- C9: for a window `[a, b, c]` (oldest first) and a sample `s`, the window after
`calc_distance_average` is exactly `[b, c, s]`, and it still has three slots. -/
theorem calc_distance_average_shifts (g : Globals) (a b c : Int)
    (hbuf : g.distance_average_buf = [a, b, c]) :
    (calc_distance_average g).distance_average_buf = [b, c, g.distance_sensor_value] ∧
    (calc_distance_average g).distance_average_buf.length = 3 := by
  have h := calc_buf g a b c hbuf
  rw [h]
  exact ⟨rfl, rfl⟩

/-- Witness for C9: the window `[10, 20, 30]` with sample 40 becomes `[20, 30, 40]`. -/
theorem calc_distance_average_shifts_witness :
    (calc_distance_average ⟨[10, 20, 30], 40, 0, 0⟩).distance_average_buf = [20, 30, 40] ∧
    (calc_distance_average ⟨[10, 20, 30], 40, 0, 0⟩).distance_average_buf.length = 3 :=
  calc_distance_average_shifts ⟨[10, 20, 30], 40, 0, 0⟩ 10 20 30 rfl

/-- C10: from a zeroed window, the average after the first sample `x` is the truncated `x / 3`
and after the second sample `y` the truncated `(x + y) / 3`; from any window `[a, b, c]`, after
any run of updates ending with the samples `x, y, z` the window is `[x, y, z]` and the average
is the truncated `(x + y + z) / 3`, whatever came before.  Pushing 10, 20, 30, 40 into the
zeroed window yields the averages 3, 10, 20, 30 and the final window `[20, 30, 40]`. -/
theorem calc_distance_average_warm_up (g0 g : Globals) (a b c : Int) (before : List Int)
    (x y z : Int)
    (hzero : g0.distance_average_buf = [0, 0, 0])
    (hbuf : g.distance_average_buf = [a, b, c])
    (hx : isInt16 x) (hy : isInt16 y) (hz : isInt16 z) :
    (push_seq g0 [x]).distance_average_value = Int.tdiv x 3 ∧
    (push_seq g0 [x, y]).distance_average_value = Int.tdiv (x + y) 3 ∧
    (push_seq g (before ++ [x, y, z])).distance_average_buf = [x, y, z] ∧
    (push_seq g (before ++ [x, y, z])).distance_average_value = Int.tdiv (x + y + z) 3 ∧
    push_averages initial_globals [10, 20, 30, 40] = [3, 10, 20, 30] ∧
    (push_seq initial_globals [10, 20, 30, 40]).distance_average_buf = [20, 30, 40] := by
  have h0 : isInt16 0 := by decide
  have e1 : (push_sample g0 x).distance_average_buf = [0, 0, x] := push_buf g0 0 0 0 x hzero
  refine ⟨?_, ?_, ?_, ?_, by decide, by decide⟩
  · have h := push_avg g0 0 0 0 x hzero h0 h0 hx
    simpa [push_seq] using h
  · have h := push_avg (push_sample g0 x) 0 0 x y e1 h0 hx hy
    simpa [push_seq] using h
  · obtain ⟨p, q, r, hpqr⟩ := push_seq_three before g ⟨a, b, c, hbuf⟩
    rw [push_seq_append]
    have s1 := push_buf (push_seq g before) p q r x hpqr
    have s2 := push_buf _ q r x y s1
    have s3 := push_buf _ r x y z s2
    simpa [push_seq] using s3
  · obtain ⟨p, q, r, hpqr⟩ := push_seq_three before g ⟨a, b, c, hbuf⟩
    rw [push_seq_append]
    have s1 := push_buf (push_seq g before) p q r x hpqr
    have s2 := push_buf _ q r x y s1
    have s3 := push_avg _ r x y z s2 hx hy hz
    simpa [push_seq] using s3

/-- Witness for C10: after 5, 6 and then 10, 20, 30 pushed into the window `[7, 8, 9]`, the
window is `[10, 20, 30]` and the average is 20. -/
theorem calc_distance_average_warm_up_witness :
    (push_seq ⟨[7, 8, 9], 0, 0, 0⟩ ([5, 6] ++ [10, 20, 30])).distance_average_buf
      = [10, 20, 30] ∧
    (push_seq ⟨[7, 8, 9], 0, 0, 0⟩ ([5, 6] ++ [10, 20, 30])).distance_average_value
      = Int.tdiv (10 + 20 + 30) 3 :=
  ⟨(calc_distance_average_warm_up initial_globals ⟨[7, 8, 9], 0, 0, 0⟩ 7 8 9 [5, 6] 10 20 30
      rfl rfl (by decide) (by decide) (by decide)).2.2.1,
   (calc_distance_average_warm_up initial_globals ⟨[7, 8, 9], 0, 0, 0⟩ 7 8 9 [5, 6] 10 20 30
      rfl rfl (by decide) (by decide) (by decide)).2.2.2.1⟩

/-! ## The classifier over several updates -/

/-- One update from `Attention` with a given average. -/
theorem judge_with_attn (g : Globals) (a : Int)
    (hs : g.distance_safe_state = CAR_SAFE_STATE_ATTN) (ha : isInt16 a) :
    (judge_with g a).distance_safe_state =
      if a < 140 then CAR_SAFE_STATE_DANG
      else if 210 < a then CAR_SAFE_STATE_SAFE else CAR_SAFE_STATE_ATTN :=
  judge_from_attn { g with distance_average_value := a } hs ha

/-- One update from `Safe` with a given average. -/
theorem judge_with_safe (g : Globals) (a : Int)
    (hs : g.distance_safe_state = CAR_SAFE_STATE_SAFE) (ha : isInt16 a) :
    (judge_with g a).distance_safe_state =
      if a < 200 then CAR_SAFE_STATE_ATTN else CAR_SAFE_STATE_SAFE :=
  judge_from_safe { g with distance_average_value := a } hs ha

/-- One update from `Danger` with a given average. -/
theorem judge_with_dang (g : Globals) (a : Int)
    (hs : g.distance_safe_state = CAR_SAFE_STATE_DANG) (ha : isInt16 a) :
    (judge_with g a).distance_safe_state =
      if a < 60 then CAR_SAFE_STATE_STOP
      else if 150 < a then CAR_SAFE_STATE_ATTN else CAR_SAFE_STATE_DANG :=
  judge_from_dang { g with distance_average_value := a } hs ha

/-- One update from `Stop` with a given average. -/
theorem judge_with_stop (g : Globals) (a : Int)
    (hs : g.distance_safe_state = CAR_SAFE_STATE_STOP) (ha : isInt16 a) :
    (judge_with g a).distance_safe_state =
      if 50 < a then CAR_SAFE_STATE_DANG else CAR_SAFE_STATE_STOP :=
  judge_from_stop { g with distance_average_value := a } hs ha

/-- Averages in `140..210` keep `Attention`, however many there are. -/
theorem judge_seq_attn_stays (as : List Int) (g : Globals)
    (hs : g.distance_safe_state = CAR_SAFE_STATE_ATTN)
    (hall : ∀ a ∈ as, 140 ≤ a ∧ a ≤ 210) :
    (judge_seq g as).distance_safe_state = CAR_SAFE_STATE_ATTN := by
  induction as generalizing g with
  | nil => simpa [judge_seq] using hs
  | cons a rest ih =>
    have ha := hall a (List.mem_cons_self a rest)
    have hstep : (judge_with g a).distance_safe_state = CAR_SAFE_STATE_ATTN := by
      rw [judge_with_attn g a hs (by unfold isInt16; omega)]
      have h1 : ¬ a < 140 := by omega
      have h2 : ¬ 210 < a := by omega
      simp [h1, h2]
    rw [judge_seq_cons]
    exact ih (judge_with g a) hstep (fun x hx => hall x (List.mem_cons_of_mem a hx))

/-- Averages in `60..150` keep `Danger`, however many there are. -/
theorem judge_seq_dang_stays (as : List Int) (g : Globals)
    (hs : g.distance_safe_state = CAR_SAFE_STATE_DANG)
    (hall : ∀ a ∈ as, 60 ≤ a ∧ a ≤ 150) :
    (judge_seq g as).distance_safe_state = CAR_SAFE_STATE_DANG := by
  induction as generalizing g with
  | nil => simpa [judge_seq] using hs
  | cons a rest ih =>
    have ha := hall a (List.mem_cons_self a rest)
    have hstep : (judge_with g a).distance_safe_state = CAR_SAFE_STATE_DANG := by
      rw [judge_with_dang g a hs (by unfold isInt16; omega)]
      have h1 : ¬ a < 60 := by omega
      have h2 : ¬ 150 < a := by omega
      simp [h1, h2]
    rw [judge_seq_cons]
    exact ih (judge_with g a) hstep (fun x hx => hall x (List.mem_cons_of_mem a hx))

/-- Averages of at most 50 keep `Stop`, however many there are. -/
theorem judge_seq_stop_stays (as : List Int) (g : Globals)
    (hs : g.distance_safe_state = CAR_SAFE_STATE_STOP)
    (hall : ∀ a ∈ as, isInt16 a ∧ a ≤ 50) :
    (judge_seq g as).distance_safe_state = CAR_SAFE_STATE_STOP := by
  induction as generalizing g with
  | nil => simpa [judge_seq] using hs
  | cons a rest ih =>
    have ha := hall a (List.mem_cons_self a rest)
    have hstep : (judge_with g a).distance_safe_state = CAR_SAFE_STATE_STOP := by
      rw [judge_with_stop g a hs ha.1]
      have h1 : ¬ 50 < a := by omega
      simp [h1]
    rw [judge_seq_cons]
    exact ih (judge_with g a) hstep (fun x hx => hall x (List.mem_cons_of_mem a hx))

/-- C11: starting from `Attention`, a sequence of averages that all lie in `140..210` leaves
the state at `Attention` after every call (after each of its first `k` calls, for every `k`) and
at its end; in particular the average 205 repeated `k` times keeps `Attention`. -/
theorem judge_dist_safe_attn_dead_zone (g : Globals) (as : List Int) (k : Nat)
    (hs : g.distance_safe_state = CAR_SAFE_STATE_ATTN)
    (hall : ∀ a ∈ as, 140 ≤ a ∧ a ≤ 210) :
    (judge_seq g (as.take k)).distance_safe_state = CAR_SAFE_STATE_ATTN ∧
    (judge_seq g as).distance_safe_state = CAR_SAFE_STATE_ATTN ∧
    (judge_seq g (List.replicate k 205)).distance_safe_state = CAR_SAFE_STATE_ATTN := by
  refine ⟨?_, judge_seq_attn_stays as g hs hall, ?_⟩
  · exact judge_seq_attn_stays _ g hs (fun x hx => hall x (List.mem_of_mem_take hx))
  · apply judge_seq_attn_stays _ g hs
    intro x hx
    have : x = 205 := List.eq_of_mem_replicate hx
    omega

/-- Witness for C11: the averages 140, 205, 210 from `Attention`. -/
theorem judge_dist_safe_attn_dead_zone_witness :
    (judge_seq ⟨[0, 0, 0], 0, 0, CAR_SAFE_STATE_ATTN⟩ ([140, 205, 210].take 2)).distance_safe_state
      = CAR_SAFE_STATE_ATTN ∧
    (judge_seq ⟨[0, 0, 0], 0, 0, CAR_SAFE_STATE_ATTN⟩ [140, 205, 210]).distance_safe_state
      = CAR_SAFE_STATE_ATTN ∧
    (judge_seq ⟨[0, 0, 0], 0, 0, CAR_SAFE_STATE_ATTN⟩ (List.replicate 2 205)).distance_safe_state
      = CAR_SAFE_STATE_ATTN :=
  judge_dist_safe_attn_dead_zone ⟨[0, 0, 0], 0, 0, CAR_SAFE_STATE_ATTN⟩ [140, 205, 210] 2 rfl
    (by decide)

/-- C12: starting from `Safe`, three successive calls with `int16_t` averages `a1 < 200`,
`a2 < 140` and `a3 < 50` yield `Attention`, then `Danger`, then `Stop`; after that, any number
of further calls with `int16_t` averages below 50 keep `Stop`.  With 150, 100, 30 the states are
`Attention`, `Danger`, `Stop`. -/
theorem judge_dist_safe_worsening_path (g : Globals) (a1 a2 a3 : Int) (further : List Int)
    (hs : g.distance_safe_state = CAR_SAFE_STATE_SAFE)
    (h1 : isInt16 a1) (h2 : isInt16 a2) (h3 : isInt16 a3)
    (l1 : a1 < 200) (l2 : a2 < 140) (l3 : a3 < 50)
    (hf : ∀ a ∈ further, isInt16 a ∧ a < 50) :
    (judge_seq g [a1]).distance_safe_state = CAR_SAFE_STATE_ATTN ∧
    (judge_seq g [a1, a2]).distance_safe_state = CAR_SAFE_STATE_DANG ∧
    (judge_seq g [a1, a2, a3]).distance_safe_state = CAR_SAFE_STATE_STOP ∧
    (judge_seq g ([a1, a2, a3] ++ further)).distance_safe_state = CAR_SAFE_STATE_STOP ∧
    (judge_seq initial_globals [150]).distance_safe_state = CAR_SAFE_STATE_ATTN ∧
    (judge_seq initial_globals [150, 100]).distance_safe_state = CAR_SAFE_STATE_DANG ∧
    (judge_seq initial_globals [150, 100, 30]).distance_safe_state = CAR_SAFE_STATE_STOP := by
  have e1 : (judge_with g a1).distance_safe_state = CAR_SAFE_STATE_ATTN := by
    rw [judge_with_safe g a1 hs h1]
    simp [l1]
  have e2 : (judge_with (judge_with g a1) a2).distance_safe_state = CAR_SAFE_STATE_DANG := by
    rw [judge_with_attn _ a2 e1 h2]
    simp [l2]
  have e3 : (judge_with (judge_with (judge_with g a1) a2) a3).distance_safe_state
      = CAR_SAFE_STATE_STOP := by
    rw [judge_with_dang _ a3 e2 h3]
    have : a3 < 60 := by omega
    simp [this]
  refine ⟨e1, e2, e3, ?_, by decide, by decide, by decide⟩
  rw [judge_seq_append]
  exact judge_seq_stop_stays further _ e3 (fun x hx => ⟨(hf x hx).1, by have := (hf x hx).2; omega⟩)

/-- Witness for C12: the averages 150, 100, 30 and then 10, 49 from `Safe`. -/
theorem judge_dist_safe_worsening_path_witness :
    (judge_seq initial_globals ([150, 100, 30] ++ [10, 49])).distance_safe_state
      = CAR_SAFE_STATE_STOP :=
  (judge_dist_safe_worsening_path initial_globals 150 100 30 [10, 49] rfl
    (by decide) (by decide) (by decide) (by decide) (by decide) (by decide)
    (by decide)).2.2.2.1

/-- C13: from `Stop`, a call with an average `a` in `61..150` yields `Danger`; any number of
further calls with averages in `61..150` keep `Danger`; and a subsequent call with an `int16_t`
average above 150 yields `Attention`.  With 100, 100, 160 the states are `Danger`, `Danger`,
`Attention`. -/
theorem judge_dist_safe_recovery (g : Globals) (a b : Int) (further : List Int)
    (hs : g.distance_safe_state = CAR_SAFE_STATE_STOP)
    (ha : 60 < a ∧ a ≤ 150)
    (hf : ∀ x ∈ further, 60 < x ∧ x ≤ 150)
    (hb : isInt16 b) (lb : 150 < b) :
    (judge_seq g [a]).distance_safe_state = CAR_SAFE_STATE_DANG ∧
    (judge_seq g (a :: further)).distance_safe_state = CAR_SAFE_STATE_DANG ∧
    (judge_seq g (a :: further ++ [b])).distance_safe_state = CAR_SAFE_STATE_ATTN ∧
    (judge_seq ⟨[0, 0, 0], 0, 0, CAR_SAFE_STATE_STOP⟩ [100]).distance_safe_state
      = CAR_SAFE_STATE_DANG ∧
    (judge_seq ⟨[0, 0, 0], 0, 0, CAR_SAFE_STATE_STOP⟩ [100, 100]).distance_safe_state
      = CAR_SAFE_STATE_DANG ∧
    (judge_seq ⟨[0, 0, 0], 0, 0, CAR_SAFE_STATE_STOP⟩ [100, 100, 160]).distance_safe_state
      = CAR_SAFE_STATE_ATTN := by
  have e1 : (judge_with g a).distance_safe_state = CAR_SAFE_STATE_DANG := by
    rw [judge_with_stop g a hs (by unfold isInt16; omega)]
    have : 50 < a := by omega
    simp [this]
  have e2 : (judge_seq (judge_with g a) further).distance_safe_state = CAR_SAFE_STATE_DANG :=
    judge_seq_dang_stays further _ e1 (fun x hx => by have := hf x hx; omega)
  refine ⟨e1, ?_, ?_, by decide, by decide, by decide⟩
  · rw [judge_seq_cons]
    exact e2
  · rw [List.cons_append, judge_seq_cons, judge_seq_append]
    show (judge_with (judge_seq (judge_with g a) further) b).distance_safe_state
      = CAR_SAFE_STATE_ATTN
    rw [judge_with_dang _ b e2 hb]
    have h1 : ¬ b < 60 := by omega
    simp [h1, lb]

/-- Witness for C13: the averages 100, then 100 and 61, then 160 from `Stop`. -/
theorem judge_dist_safe_recovery_witness :
    (judge_seq ⟨[0, 0, 0], 0, 0, CAR_SAFE_STATE_STOP⟩ (100 :: [100, 61] ++ [160])).distance_safe_state
      = CAR_SAFE_STATE_ATTN :=
  (judge_dist_safe_recovery ⟨[0, 0, 0], 0, 0, CAR_SAFE_STATE_STOP⟩ 100 160 [100, 61] rfl
    (by decide) (by decide) (by decide) (by decide)).2.2.1

/-- Classifier updates keep a valid state valid. -/
theorem judge_seq_valid (as : List Int) (g : Globals) (h : valid_state g.distance_safe_state) :
    valid_state (judge_seq g as).distance_safe_state := by
  induction as generalizing g with
  | nil => simpa [judge_seq] using h
  | cons a rest ih =>
    rw [judge_seq_cons]
    exact ih _ (judge_valid { g with distance_average_value := a } h)

/-- The filter does not write the safety state. -/
theorem push_sample_state (g : Globals) (s : Int) :
    (push_sample g s).distance_safe_state = g.distance_safe_state := rfl

/-- Ticks of the whole pipeline keep a valid state valid. -/
theorem tick_seq_valid (samples : List Int) (g : Globals)
    (h : valid_state g.distance_safe_state) :
    valid_state (tick_seq g samples).distance_safe_state := by
  induction samples generalizing g with
  | nil => simpa [tick_seq] using h
  | cons s rest ih =>
    have hstep : valid_state (tick g s).distance_safe_state :=
      judge_valid (push_sample g s) (by rw [push_sample_state]; exact h)
    have := ih (tick g s) hstep
    simpa [tick_seq] using this

/-- C14: `judge_dist_safe` is a total function on the global state: for every state among
`Safe = 0`, `Attention = 1`, `Danger = 2`, `Stop = 3` and every stored average it returns a
result, whose state is again one of the four values; hence the state reached from `Safe` by any
sequence of classifier updates (with arbitrary averages), and by any sequence of ticks of the
whole pipeline from the start-up state, is valid. -/
theorem judge_dist_safe_valid (g : Globals) (as samples : List Int)
    (h : valid_state g.distance_safe_state) :
    (∃ g1, judge_dist_safe g = g1 ∧ valid_state g1.distance_safe_state) ∧
    (g.distance_safe_state = CAR_SAFE_STATE_SAFE →
      valid_state (judge_seq g as).distance_safe_state) ∧
    valid_state (judge_seq g as).distance_safe_state ∧
    valid_state (tick_seq initial_globals samples).distance_safe_state := by
  refine ⟨⟨judge_dist_safe g, rfl, judge_valid g h⟩, fun _ => judge_seq_valid as g h,
    judge_seq_valid as g h, ?_⟩
  exact tick_seq_valid samples initial_globals (by decide)

/-- Witness for C14: four updates from `Safe`, ending in `Stop`. -/
theorem judge_dist_safe_valid_witness :
    valid_state (judge_seq initial_globals [150, 100, 30, -32768]).distance_safe_state :=
  (judge_dist_safe_valid initial_globals [150, 100, 30, -32768] [] (by decide)).2.2.1

/-! ## Arithmetic of the filter -/

/-- The additions of the second loop on a window of three `int16_t` values. -/
theorem sum_loop_exact_three {x y z : Int} (hx : isInt16 x) (hy : isInt16 y) (hz : isInt16 z) :
    sum_loop_exact [x, y, z] = [x, x + y, x + y + z] := by
  unfold isInt16 at *
  have e1 : toInt32 x = x := toInt32_of_isInt32 (by unfold isInt32; omega)
  have e2 : toInt32 y = y := toInt32_of_isInt32 (by unfold isInt32; omega)
  have e3 : toInt32 z = z := toInt32_of_isInt32 (by unfold isInt32; omega)
  have e4 : toInt32 (x + y) = x + y := toInt32_of_isInt32 (by unfold isInt32; omega)
  simp [sum_loop_exact, sum_loop_traced, DISTANCE_AVERAGE_BUF_SIZE, List.range, List.range.loop,
    e1, e2, e3, e4]

/-- The recorded loop carries the accumulator of `sum_loop`. -/
theorem sum_loop_traced_fst (buf : List Int) : (sum_loop_traced buf).1 = sum_loop buf := by
  simp [sum_loop_traced, sum_loop, DISTANCE_AVERAGE_BUF_SIZE, List.range, List.range.loop]

/-- C15: for a window `[a, b, c]` and a sample `s` in the `int16_t` range, the additions of the
32-bit accumulation over the resulting window have the exact values `b`, `b + c`, `b + c + s`,
all inside the `int32_t` range, so the accumulated sum is `b + c + s` without wrap-around; the
quotient `sum / 3` lies in the `int16_t` range and the narrowing cast leaves it unchanged.  The
extreme windows, all slots 32767 and all slots -32768, give 32767 and -32768. -/
theorem calc_distance_average_no_overflow (g : Globals) (a b c : Int)
    (hbuf : g.distance_average_buf = [a, b, c])
    (hb : isInt16 b) (hc : isInt16 c) (hs : isInt16 g.distance_sensor_value) :
    (sum_loop_traced (calc_distance_average g).distance_average_buf).1
      = sum_loop (calc_distance_average g).distance_average_buf ∧
    sum_loop_exact (calc_distance_average g).distance_average_buf
      = [b, b + c, b + c + g.distance_sensor_value] ∧
    (∀ e ∈ sum_loop_exact (calc_distance_average g).distance_average_buf, isInt32 e) ∧
    sum_loop (calc_distance_average g).distance_average_buf
      = b + c + g.distance_sensor_value ∧
    isInt16 (Int.tdiv (sum_loop (calc_distance_average g).distance_average_buf) 3) ∧
    toInt16 (Int.tdiv (sum_loop (calc_distance_average g).distance_average_buf) 3)
      = Int.tdiv (sum_loop (calc_distance_average g).distance_average_buf) 3 ∧
    (calc_distance_average g).distance_average_value
      = Int.tdiv (sum_loop (calc_distance_average g).distance_average_buf) 3 ∧
    sum_loop_exact (calc_distance_average ⟨[32767, 32767, 32767], 32767, 0, 0⟩).distance_average_buf
      = [32767, 65534, 98301] ∧
    (calc_distance_average ⟨[32767, 32767, 32767], 32767, 0, 0⟩).distance_average_value
      = 32767 ∧
    sum_loop_exact
        (calc_distance_average ⟨[-32768, -32768, -32768], -32768, 0, 0⟩).distance_average_buf
      = [-32768, -65536, -98304] ∧
    (calc_distance_average ⟨[-32768, -32768, -32768], -32768, 0, 0⟩).distance_average_value
      = -32768 := by
  have hq := tdiv_three_isInt16 hb hc hs
  rw [calc_avg g a b c hbuf hb hc hs, calc_buf g a b c hbuf, sum_loop_exact_three hb hc hs,
    sum_loop_three hb hc hs]
  refine ⟨(sum_loop_traced_fst _).trans (sum_loop_three hb hc hs), rfl, ?_, rfl, hq,
    toInt16_of_isInt16 hq, rfl, by decide, by decide, by decide, by decide⟩
  intro e he
  unfold isInt16 at hb hc hs
  unfold isInt32
  simp only [List.mem_cons, List.mem_singleton, List.not_mem_nil, or_false] at he
  rcases he with h | h | h <;> omega

/-- Witness for C15: the window `[0, 32767, 32767]` with sample 32767. -/
theorem calc_distance_average_no_overflow_witness :
    sum_loop (calc_distance_average ⟨[0, 32767, 32767], 32767, 0, 0⟩).distance_average_buf
      = 32767 + 32767 + 32767 :=
  (calc_distance_average_no_overflow ⟨[0, 32767, 32767], 32767, 0, 0⟩ 0 32767 32767 rfl
    (by decide) (by decide) (by decide)).2.2.2.1

/-- The filter leaves the safety state alone over any run of samples. -/
theorem push_seq_state (samples : List Int) (g : Globals) :
    (push_seq g samples).distance_safe_state = g.distance_safe_state := by
  induction samples generalizing g with
  | nil => rfl
  | cons s rest ih =>
    have := ih (push_sample g s)
    simpa [push_seq, push_sample_state] using this

/-- C16: `calc_distance_average` writes only the window and the stored average: the safety
state (and the sensor value) are unchanged, also over any run of filter updates;
`judge_dist_safe` writes only the safety state: the window, the stored average (and the sensor
value) are unchanged, so its result is the input with the safety state replaced. -/
theorem calc_judge_frame (g : Globals) (samples : List Int) :
    (calc_distance_average g).distance_safe_state = g.distance_safe_state ∧
    (calc_distance_average g).distance_sensor_value = g.distance_sensor_value ∧
    (push_seq g samples).distance_safe_state = g.distance_safe_state ∧
    (judge_dist_safe g).distance_average_buf = g.distance_average_buf ∧
    (judge_dist_safe g).distance_average_value = g.distance_average_value ∧
    (judge_dist_safe g).distance_sensor_value = g.distance_sensor_value ∧
    judge_dist_safe g
      = { g with distance_safe_state := (judge_dist_safe g).distance_safe_state } := by
  have h := judge_frame g
  refine ⟨rfl, rfl, push_seq_state samples g, h.1, h.2.2, h.2.1, ?_⟩
  cases hj : judge_dist_safe g with
  | mk jb js ja jst =>
    rw [hj] at h
    simp only at h
    obtain ⟨h1, h2, h3⟩ := h
    subst h1 h2 h3
    rfl

/-- C17: for every average the two checks of the `Attention` branch (below 140, above 210) are
never both true, nor are the two checks of the `Danger` branch (below its worsening border,
above 150); hence `judge_dist_safe` returns the same result as the variant with exclusive
branching, for every stored state and average. -/
theorem judge_dist_safe_eq_else_if (g : Globals) (a : Int) :
    ¬ (CAR_SAFE_STATE_ATTN_DANG_BORDER > a ∧ CAR_SAFE_STATE_ATTN_SAFE_BORDER < a) ∧
    ¬ (CAR_SAFE_STATE_DANG_STOP_BORDER > a ∧ CAR_SAFE_STATE_DANG_ATTN_BORDER < a) ∧
    judge_dist_safe g = judge_dist_safe_else_if g := by
  refine ⟨?_, ?_, ?_⟩
  · simp only [CAR_SAFE_STATE_ATTN_DANG_BORDER, CAR_SAFE_STATE_ATTN_SAFE_BORDER]
    omega
  · simp only [CAR_SAFE_STATE_DANG_STOP_BORDER, CAR_SAFE_STATE_DANG_ATTN_BORDER]
    omega
  · simp only [judge_dist_safe, judge_dist_safe_else_if, set_state,
      CAR_SAFE_STATE_ATTN_DANG_BORDER, CAR_SAFE_STATE_ATTN_SAFE_BORDER,
      CAR_SAFE_STATE_DANG_STOP_BORDER, CAR_SAFE_STATE_DANG_ATTN_BORDER]
    split_ifs <;> first | rfl | omega

/-! ## `not0` -/

/-- C18: at an integer type, `not0 v` is never 0, it is `v` when `v` is non-zero, and
`not0 0 = 1`. -/
theorem not0_ne_zero (v : Int) :
    not0 v ≠ 0 ∧ (v ≠ 0 → not0 v = v) ∧ not0 0 = 1 := by
  refine ⟨?_, ?_, rfl⟩
  · unfold not0
    split_ifs with h
    · exact h
    · decide
  · intro h
    simp [not0, h]

/-- Witness for C18 at `v = -7`. -/
theorem not0_ne_zero_witness : not0 (-7) = -7 :=
  (not0_ne_zero (-7)).2.1 (by decide)

/-! ## Order properties -/

/-- C19: for a window `[a, b, c]` and a sample `s` in the `int16_t` range, the average stored
by `calc_distance_average` lies between the minimum and the maximum of the three entries
`b, c, s` of the resulting window (both inclusive); and after the same `int16_t` sample `v`
has been pushed three times into any window, the average is exactly `v`. -/
theorem calc_distance_average_bounded (g g1 : Globals) (a b c p q r v : Int)
    (hbuf : g.distance_average_buf = [a, b, c])
    (hb : isInt16 b) (hc : isInt16 c) (hs : isInt16 g.distance_sensor_value)
    (hbuf1 : g1.distance_average_buf = [p, q, r]) (hv : isInt16 v) :
    (calc_distance_average g).distance_average_buf = [b, c, g.distance_sensor_value] ∧
    min b (min c g.distance_sensor_value) ≤ (calc_distance_average g).distance_average_value ∧
    (calc_distance_average g).distance_average_value ≤ max b (max c g.distance_sensor_value) ∧
    (push_seq g1 [v, v, v]).distance_average_buf = [v, v, v] ∧
    (push_seq g1 [v, v, v]).distance_average_value = v := by
  have hq := tdiv_three_bounds (b + c + g.distance_sensor_value)
  have hw := tdiv_three_bounds (v + v + v)
  have s1 := push_buf g1 p q r v hbuf1
  have s2 := push_buf _ q r v v s1
  have s3 := push_buf _ r v v v s2
  have s4 := push_avg _ r v v v s2 hv hv hv
  rw [calc_avg g a b c hbuf hb hc hs]
  refine ⟨calc_buf g a b c hbuf, ?_, ?_, by simpa [push_seq] using s3, ?_⟩
  · by_cases h0 : 0 ≤ b + c + g.distance_sensor_value
    · have := hq.1 h0
      omega
    · have := hq.2 (by omega)
      omega
  · by_cases h0 : 0 ≤ b + c + g.distance_sensor_value
    · have := hq.1 h0
      omega
    · have := hq.2 (by omega)
      omega
  · have e : (push_seq g1 [v, v, v]).distance_average_value = Int.tdiv (v + v + v) 3 := by
      simpa [push_seq] using s4
    rw [e]
    by_cases h0 : 0 ≤ v + v + v
    · have := hw.1 h0
      omega
    · have := hw.2 (by omega)
      omega

/-- Witness for C19: window `[9, -5, 7]` with sample 2, and the sample -3 pushed three
times. -/
theorem calc_distance_average_bounded_witness :
    min (-5) (min 7 2) ≤ (calc_distance_average ⟨[9, -5, 7], 2, 0, 0⟩).distance_average_value ∧
    (calc_distance_average ⟨[9, -5, 7], 2, 0, 0⟩).distance_average_value ≤ max (-5) (max 7 2) ∧
    (push_seq ⟨[9, -5, 7], 2, 0, 0⟩ [-3, -3, -3]).distance_average_value = -3 :=
  ⟨(calc_distance_average_bounded ⟨[9, -5, 7], 2, 0, 0⟩ ⟨[9, -5, 7], 2, 0, 0⟩ 9 (-5) 7 9 (-5) 7
      (-3) rfl (by decide) (by decide) (by decide) rfl (by decide)).2.1,
   (calc_distance_average_bounded ⟨[9, -5, 7], 2, 0, 0⟩ ⟨[9, -5, 7], 2, 0, 0⟩ 9 (-5) 7 9 (-5) 7
      (-3) rfl (by decide) (by decide) (by decide) rfl (by decide)).2.2.1,
   (calc_distance_average_bounded ⟨[9, -5, 7], 2, 0, 0⟩ ⟨[9, -5, 7], 2, 0, 0⟩ 9 (-5) 7 9 (-5) 7
      (-3) rfl (by decide) (by decide) (by decide) rfl (by decide)).2.2.2.2⟩

/-- C20: for every valid state and all `int16_t` averages `a1 ≤ a2`, the state produced by
`judge_dist_safe` with `a1` is at least as severe as the state produced with `a2`
(`Safe = 0 < Attention = 1 < Danger = 2 < Stop = 3`). -/
theorem judge_dist_safe_monotone (g : Globals) (a1 a2 : Int)
    (hv : valid_state g.distance_safe_state)
    (h1 : isInt16 a1) (h2 : isInt16 a2) (hle : a1 ≤ a2) :
    (judge_with g a2).distance_safe_state ≤ (judge_with g a1).distance_safe_state := by
  rcases hv with hs | hs | hs | hs
  · rw [judge_with_safe g a1 hs h1, judge_with_safe g a2 hs h2]
    simp only [CAR_SAFE_STATE_SAFE, CAR_SAFE_STATE_ATTN]
    split_ifs <;> omega
  · rw [judge_with_attn g a1 hs h1, judge_with_attn g a2 hs h2]
    simp only [CAR_SAFE_STATE_SAFE, CAR_SAFE_STATE_ATTN, CAR_SAFE_STATE_DANG]
    split_ifs <;> omega
  · rw [judge_with_dang g a1 hs h1, judge_with_dang g a2 hs h2]
    simp only [CAR_SAFE_STATE_ATTN, CAR_SAFE_STATE_DANG, CAR_SAFE_STATE_STOP]
    split_ifs <;> omega
  · rw [judge_with_stop g a1 hs h1, judge_with_stop g a2 hs h2]
    simp only [CAR_SAFE_STATE_DANG, CAR_SAFE_STATE_STOP]
    split_ifs <;> omega

/-- Witness for C20: from `Danger`, the average 55 gives `Stop` and 160 gives `Attention`. -/
theorem judge_dist_safe_monotone_witness :
    (judge_with ⟨[0, 0, 0], 0, 0, CAR_SAFE_STATE_DANG⟩ 160).distance_safe_state
      ≤ (judge_with ⟨[0, 0, 0], 0, 0, CAR_SAFE_STATE_DANG⟩ 55).distance_safe_state :=
  judge_dist_safe_monotone ⟨[0, 0, 0], 0, 0, CAR_SAFE_STATE_DANG⟩ 55 160 (by decide)
    (by decide) (by decide) (by decide)

/-- C21 (evaluation of the code): at the average 55 the severity order of `Danger ≤ Stop` is
not preserved: from `Danger` the call gives `Stop` (55 is below the border 60 used for
`Danger → Stop`), from `Stop` it gives `Danger` (55 is above the border 50 used for
`Stop → Danger`), so the less severe starting state ends up the more severe one. -/
theorem judge_dist_safe_order_at_55 :
    isInt16 55 ∧
    valid_state CAR_SAFE_STATE_DANG ∧ valid_state CAR_SAFE_STATE_STOP ∧
    CAR_SAFE_STATE_DANG ≤ CAR_SAFE_STATE_STOP ∧
    (judge_with ⟨[0, 0, 0], 0, 0, CAR_SAFE_STATE_DANG⟩ 55).distance_safe_state
      = CAR_SAFE_STATE_STOP ∧
    (judge_with ⟨[0, 0, 0], 0, 0, CAR_SAFE_STATE_STOP⟩ 55).distance_safe_state
      = CAR_SAFE_STATE_DANG ∧
    ¬ ((judge_with ⟨[0, 0, 0], 0, 0, CAR_SAFE_STATE_DANG⟩ 55).distance_safe_state
        ≤ (judge_with ⟨[0, 0, 0], 0, 0, CAR_SAFE_STATE_STOP⟩ 55).distance_safe_state) := by
  decide

/-! ## The 8-bit wrappers of `Serial` -/

/-- C22: for every `uint8_t` value `x`, neither range check of `Serial::DeviceSelect(x)` nor of
`Serial::MemoryAddr(x)` fires (`x < 0x00` and `0xff < x` are both false), so both constructors
return an object instead of throwing, and `get()` on that object returns exactly `x`. -/
theorem serial_wrappers_never_reject (x : Nat) (hx : isUInt8 x) :
    ¬ (x < Serial.DeviceSelect.MinDeviceSelectID) ∧
    ¬ (Serial.DeviceSelect.MaxDeviceSelectID < x) ∧
    (∃ d, Serial.DeviceSelect.new x = Except.ok d ∧ Serial.DeviceSelect.get d = x) ∧
    ¬ (x < Serial.MemoryAddr.MinMemoryAddr) ∧
    ¬ (Serial.MemoryAddr.MaxMemoryAddr < x) ∧
    (∃ m, Serial.MemoryAddr.new x = Except.ok m ∧ Serial.MemoryAddr.get m = x) := by
  unfold isUInt8 at hx
  have h1 : ¬ (x < Serial.DeviceSelect.MinDeviceSelectID) := by
    simp [Serial.DeviceSelect.MinDeviceSelectID]
  have h2 : ¬ (Serial.DeviceSelect.MaxDeviceSelectID < x) := by
    simp only [Serial.DeviceSelect.MaxDeviceSelectID]
    omega
  have h3 : ¬ (x < Serial.MemoryAddr.MinMemoryAddr) := by
    simp [Serial.MemoryAddr.MinMemoryAddr]
  have h4 : ¬ (Serial.MemoryAddr.MaxMemoryAddr < x) := by
    simp only [Serial.MemoryAddr.MaxMemoryAddr]
    omega
  refine ⟨h1, h2, ⟨⟨x⟩, ?_, rfl⟩, h3, h4, ⟨⟨x⟩, ?_, rfl⟩⟩
  · simp only [Serial.DeviceSelect.new, h1, h2]
    rfl
  · simp only [Serial.MemoryAddr.new, h3, h4]
    rfl

/-- Witness for C22 at the largest value `x = 255`. -/
theorem serial_wrappers_never_reject_witness :
    (∃ d, Serial.DeviceSelect.new 255 = Except.ok d ∧ Serial.DeviceSelect.get d = 255) ∧
    (∃ m, Serial.MemoryAddr.new 255 = Except.ok m ∧ Serial.MemoryAddr.get m = 255) :=
  ⟨(serial_wrappers_never_reject 255 (by decide)).2.2.1,
   (serial_wrappers_never_reject 255 (by decide)).2.2.2.2.2⟩

end SC19
